import Mathlib

/-!
Shallow embedding of the cryptopay payment service
(`src/cryptopay/service.py`, class `CryptoPaymentsService`) together with
the data model it manipulates.

Modelling conventions:
* Python `Decimal` values are embedded as exact rationals `ℚ`.
* Python `Optional[T]` is `Option T`; a raised exception is `Except.error`.
* The durable state held by the four repositories is one `Store` record;
  each service method is a pure function `Env → Store → args → result × Store`
  (fallible methods return `Except String Invoice × Store`; every `raise`
  in the source happens before any repository write, so the store returned
  alongside an error is the unmodified input store, exactly as in the code).
* External collaborators (network client, security provider, exchange-rate
  provider, blockchain reader, and the system clock) are fields of `Env`.
  `time.time()` is modelled as a stream `timeReads : Nat → Int` of successive
  clock readings; `check_invoice_status` calls `int(time.time())` exactly once
  (line 273 of the source), which consumes reading 0.  Reading 1 is the value
  a hypothetical second clock call after the blockchain query would observe.
-/

namespace Cryptopay

/-- `cryptopay.enums.InvoiceStatus`. -/
inductive InvoiceStatus where
  | PENDING
  | PAID
  | EXPIRED
deriving DecidableEq, Repr

/-- `cryptopay.models.Wallet`: per-(user, network) wallet with encrypted key
material (bytes embedded as `List Nat`). -/
structure Wallet where
  id : Nat
  user_id : Nat
  network : String
  address : String
  private_key_encrypted : List Nat
deriving DecidableEq, Repr

/-- `cryptopay.models.WalletCredentials`: raw output of
`network_client.generate_wallet()`. -/
structure WalletCredentials where
  address : String
  private_key : List Nat
deriving DecidableEq, Repr

/-- `cryptopay.models.Invoice`.  Fiat fields are populated only for
fiat-denominated invoices. -/
structure Invoice where
  id : Nat
  user_id : Nat
  created_at : Int
  updated_at : Int
  expires_at : Option Int
  status : InvoiceStatus
  fiat_amount : Option ℚ
  fiat_currency : Option String
  crypto_amount : ℚ
  crypto_currency : String
  crypto_currency_address : Option String
  network : String
deriving DecidableEq, Repr

/-- `cryptopay.models.Transaction`: a recorded on-chain payment event. -/
structure Transaction where
  id : Nat
  invoice_id : Nat
  hash : String
  network : String
deriving DecidableEq, Repr

/-- `cryptopay.models.ExchangeRate`: fiat↔crypto conversion snapshot. -/
structure ExchangeRate where
  id : Nat
  rate : ℚ
  reverted_rate : ℚ
  fiat_currency : String
  crypto_currency : String
  last_updated_at : Int
deriving DecidableEq, Repr

/-- The durable state of the four repositories, as one record.  Surrogate
identifiers are assigned from the `next_*` counters on save. -/
structure Store where
  wallets : List Wallet
  invoices : List Invoice
  transactions : List Transaction
  next_wallet_id : Nat
  next_invoice_id : Nat
  next_transaction_id : Nat
deriving DecidableEq, Repr

/-- Modelled from the spec: wallet store contract
`getByUserAndNetwork(userId, network) → Wallet|absent` (§6); the concrete
in-memory repository is not under `src/`. -/
def repo_get_wallet (s : Store) (user_id : Nat) (network : String) : Option Wallet :=
  s.wallets.find? (fun w => w.user_id = user_id && w.network = network)

/-- Modelled from the spec: wallet store contract `save(Wallet) → Wallet`
(assigns identifier) (§6). -/
def repo_save_wallet (s : Store) (w : Wallet) : Wallet × Store :=
  let w1 : Wallet := { w with id := s.next_wallet_id }
  (w1, { s with wallets := s.wallets ++ [w1], next_wallet_id := s.next_wallet_id + 1 })

/-- Modelled from the spec: invoice store contract `getById(id) → Invoice|absent`
(§6). -/
def repo_get_invoice (s : Store) (invoice_id : Nat) : Option Invoice :=
  s.invoices.find? (fun i => i.id = invoice_id)

/-- Modelled from the spec: invoice store contract `save(Invoice) → Invoice`
(assigns identifier) (§6). -/
def repo_save_invoice (s : Store) (i : Invoice) : Invoice × Store :=
  let i1 : Invoice := { i with id := s.next_invoice_id }
  (i1, { s with invoices := s.invoices ++ [i1], next_invoice_id := s.next_invoice_id + 1 })

/-- Modelled from the spec: invoice store contract
`updateStatus(id, status) → Invoice` (§6): sets the status of the invoice with
the given identifier. -/
def repo_update_invoice_status (s : Store) (invoice_id : Nat) (st : InvoiceStatus) : Store :=
  { s with invoices :=
      s.invoices.map (fun i => if i.id = invoice_id then { i with status := st } else i) }

/-- Modelled from the spec: transaction store contract
`getByHashAndNetwork(hash, network) → Transaction|absent` (§6). -/
def repo_get_transaction (s : Store) (hash : String) (network : String) : Option Transaction :=
  s.transactions.find? (fun t => t.hash = hash && t.network = network)

/-- Modelled from the spec: transaction store contract
`save(Transaction) → Transaction` (assigns the surrogate identifier; all other
fields, `invoice_id` included, are stored exactly as given) (§6, §3). -/
def repo_save_transaction (s : Store) (t : Transaction) : Store :=
  { s with transactions := s.transactions ++ [{ t with id := s.next_transaction_id }],
           next_transaction_id := s.next_transaction_id + 1 }

/-- The external collaborators of `CryptoPaymentsService` (constructor
arguments other than the four repositories), plus the system clock. -/
structure Env where
  /-- `network_client.generate_wallet()` -/
  generate_wallet : WalletCredentials
  /-- `network_client.get_network_name()` -/
  network_name : String
  /-- `security_provider.encrypt_bytes` -/
  encrypt_bytes : List Nat → List Nat
  /-- `exchange_rate_provider.get_exchange_rate(fiat, crypto)` -/
  get_exchange_rate : String → String → Option ExchangeRate
  /-- `blockchain_reader.search_transactions_for_wallet(wallet, invoice)` -/
  search_transactions_for_wallet : Wallet → Invoice → Option Transaction
  /-- successive values returned by `int(time.time())`; a service call that
  reads the clock once consumes reading 0 -/
  timeReads : Nat → Int

/-- The guard `if invoice.expires_at and current_time > invoice.expires_at`
(source lines 274, 288, 299).  Python truthiness: `None` and `0` are falsy,
so a timestamp of exactly 0 never counts as set. -/
def expiresPassed (expires_at : Option Int) (now : Int) : Bool :=
  match expires_at with
  | none => false
  | some e => e != 0 && now > e

/-- `CryptoPaymentsService.get_wallet_for_user` (source lines 88–130):
return the stored wallet for (user_id, network) if one exists, otherwise
generate credentials, encrypt the private key, and persist a new wallet. -/
def get_wallet_for_user (env : Env) (s : Store) (user_id : Nat) (network : String) :
    Wallet × Store :=
  match repo_get_wallet s user_id network with
  | some existing_wallet => (existing_wallet, s)
  | none =>
    let wallet_credentials := env.generate_wallet
    let private_key_encrypted := env.encrypt_bytes wallet_credentials.private_key
    let wallet : Wallet :=
      { id := 0
        user_id := user_id
        network := network
        address := wallet_credentials.address
        private_key_encrypted := private_key_encrypted }
    repo_save_wallet s wallet

/-- `CryptoPaymentsService.create_fiat_invoice` (source lines 132–190):
look up the exchange rate first (raising if absent, before any write), compute
`crypto_amount = fiat_amount * reverted_rate` in exact decimal arithmetic,
ensure a wallet exists, then persist a PENDING invoice. -/
def create_fiat_invoice (env : Env) (s : Store) (user_id : Nat) (network : String)
    (fiat_amount : ℚ) (fiat_currency : String) (expires_at : Option Int) :
    Except String Invoice × Store :=
  match env.get_exchange_rate fiat_currency env.network_name with
  | none =>
    (Except.error ("Exchange rate not available for " ++ fiat_currency ++ "/"
        ++ env.network_name), s)
  | some exchange_rate_data =>
    let crypto_amount := fiat_amount * exchange_rate_data.reverted_rate
    let ws := get_wallet_for_user env s user_id network
    let current_time := env.timeReads 0
    let invoice : Invoice :=
      { id := 0
        user_id := user_id
        created_at := current_time
        updated_at := current_time
        expires_at := expires_at
        status := InvoiceStatus.PENDING
        fiat_amount := some fiat_amount
        fiat_currency := some fiat_currency
        crypto_amount := crypto_amount
        crypto_currency := env.network_name
        crypto_currency_address := none
        network := network }
    let saved := repo_save_invoice ws.2 invoice
    (Except.ok saved.1, saved.2)

/-- `CryptoPaymentsService.create_crypto_invoice` (source lines 192–240). -/
def create_crypto_invoice (env : Env) (s : Store) (user_id : Nat) (network : String)
    (crypto_amount : ℚ) (crypto_currency : String)
    (crypto_currency_address : Option String) (expires_at : Option Int) :
    Except String Invoice × Store :=
  let ws := get_wallet_for_user env s user_id network
  let current_time := env.timeReads 0
  let invoice : Invoice :=
    { id := 0
      user_id := user_id
      created_at := current_time
      updated_at := current_time
      expires_at := expires_at
      status := InvoiceStatus.PENDING
      fiat_amount := none
      fiat_currency := none
      crypto_amount := crypto_amount
      crypto_currency := crypto_currency
      crypto_currency_address := crypto_currency_address
      network := network }
  let saved := repo_save_invoice ws.2 invoice
  (Except.ok saved.1, saved.2)

/-- `CryptoPaymentsService.check_invoice_status` (source lines 242–310),
translated branch by branch.  `int(time.time())` is called exactly once
(line 273), so every one of the three expiration guards compares the same
captured `current_time = env.timeReads 0`. -/
def check_invoice_status (env : Env) (s : Store) (invoice_id : Nat) :
    Except String Invoice × Store :=
  match repo_get_invoice s invoice_id with
  | none => (Except.error ("Invoice with ID not found"), s)
  | some invoice =>
    if invoice.status ≠ InvoiceStatus.PENDING then
      (Except.ok invoice, s)
    else
      let current_time := env.timeReads 0
      if expiresPassed invoice.expires_at current_time then
        (Except.ok { invoice with status := InvoiceStatus.EXPIRED },
         repo_update_invoice_status s invoice_id InvoiceStatus.EXPIRED)
      else
        match repo_get_wallet s invoice.user_id invoice.network with
        | none => (Except.error ("Wallet not found for user and network"), s)
        | some wallet =>
          match env.search_transactions_for_wallet wallet invoice with
          | none =>
            if expiresPassed invoice.expires_at current_time then
              (Except.ok { invoice with status := InvoiceStatus.EXPIRED },
               repo_update_invoice_status s invoice_id InvoiceStatus.EXPIRED)
            else
              (Except.ok invoice, s)
          | some transaction =>
            match repo_get_transaction s transaction.hash transaction.network with
            | some _ =>
              if expiresPassed invoice.expires_at current_time then
                (Except.ok { invoice with status := InvoiceStatus.EXPIRED },
                 repo_update_invoice_status s invoice_id InvoiceStatus.EXPIRED)
              else
                (Except.ok invoice, s)
            | none =>
              let s1 := repo_save_transaction s transaction
              let s2 := repo_update_invoice_status s1 invoice_id InvoiceStatus.PAID
              (Except.ok { invoice with status := InvoiceStatus.PAID }, s2)

/-- The status of the invoice a service call returned, if it succeeded. -/
def resultStatus (r : Except String Invoice × Store) : Option InvoiceStatus :=
  match r.1 with
  | Except.ok i => some i.status
  | Except.error _ => none

/-- The crypto amount of the invoice a service call returned, if it
succeeded. -/
def resultCryptoAmount (r : Except String Invoice × Store) : Option ℚ :=
  match r.1 with
  | Except.ok i => some i.crypto_amount
  | Except.error _ => none

/-! ## Concrete fixtures used by witnesses and counterexamples -/

/-- Sample raw credentials returned by the network client. -/
def credsA : WalletCredentials := { address := "addrA", private_key := [7, 7] }

/-- Sample stored exchange rate: 1 unit of crypto = 2000 USD, so
`reverted_rate = 0.0005 = 1/2000`. -/
def rateUSD : ExchangeRate :=
  { id := 1, rate := 2000, reverted_rate := 1/2000, fiat_currency := "USD",
    crypto_currency := "erc20", last_updated_at := 0 }

/-- Sample stored wallet for user 1 on network "bitcoin". -/
def walletB : Wallet :=
  { id := 1, user_id := 1, network := "bitcoin", address := "a1",
    private_key_encrypted := [9] }

/-- Base environment: clock always reads 100, blockchain reader finds
nothing. -/
def envBase : Env :=
  { generate_wallet := credsA
    network_name := "erc20"
    encrypt_bytes := fun b => 0 :: b
    get_exchange_rate := fun f c => if f = "USD" && c = "erc20" then some rateUSD else none
    search_transactions_for_wallet := fun _ _ => none
    timeReads := fun _ => 100 }

/-- Transaction the blockchain reader yields in payment scenarios.  Its
`invoice_id` is 42, deliberately unrelated to any stored invoice. -/
def txFresh : Transaction := { id := 0, invoice_id := 42, hash := "0xabc", network := "bitcoin" }

/-- Environment whose blockchain reader always yields `txFresh`. -/
def envPay : Env := { envBase with search_transactions_for_wallet := fun _ _ => some txFresh }

/-- Pending invoice with no expiration timestamp. -/
def invNoExp : Invoice :=
  { id := 1, user_id := 1, created_at := 0, updated_at := 0, expires_at := none,
    status := InvoiceStatus.PENDING, fiat_amount := none, fiat_currency := none,
    crypto_amount := 1, crypto_currency := "BTC", crypto_currency_address := none,
    network := "bitcoin" }

/-- Pending invoice whose expiration (50) has passed at clock reading 100. -/
def invExp : Invoice := { invNoExp with expires_at := some 50 }

/-- Invoice already in the terminal PAID state. -/
def invPaid : Invoice := { invNoExp with status := InvoiceStatus.PAID }

/-- Pending invoice with expiration timestamp exactly 0. -/
def invZero : Invoice := { invNoExp with expires_at := some 0 }

/-- Pending invoice expiring at 150: not yet expired at clock reading 100,
expired by clock reading 200. -/
def invMid : Invoice := { invNoExp with expires_at := some 150 }

/-- Pending invoice expiring at 200. -/
def invLate : Invoice := { invNoExp with expires_at := some 200 }

/-- Store holding `walletB` and one given invoice, no transactions. -/
def storeWith (i : Invoice) : Store :=
  { wallets := [walletB], invoices := [i], transactions := []
    next_wallet_id := 2, next_invoice_id := 2, next_transaction_id := 1 }

/-! ## Helper lemmas -/

theorem transactions_update_invoice_status (s : Store) (invoice_id : Nat)
    (st : InvoiceStatus) :
    (repo_update_invoice_status s invoice_id st).transactions = s.transactions := rfl

theorem invoices_save_transaction (s : Store) (t : Transaction) :
    (repo_save_transaction s t).invoices = s.invoices := rfl

theorem find?_status_update (l : List Invoice) (invoice_id : Nat) (st : InvoiceStatus) :
    (l.map (fun i => if i.id = invoice_id then { i with status := st } else i)).find?
        (fun i => i.id = invoice_id)
      = (l.find? (fun i => i.id = invoice_id)).map
          (fun i => { i with status := st }) := by
  induction l with
  | nil => rfl
  | cons a l ih =>
    by_cases h : a.id = invoice_id
    · simp [List.find?, h]
    · simp [List.find?, h, ih]

theorem repo_get_invoice_update (s : Store) (invoice_id : Nat) (st : InvoiceStatus) :
    repo_get_invoice (repo_update_invoice_status s invoice_id st) invoice_id
      = (repo_get_invoice s invoice_id).map (fun i => { i with status := st }) := by
  unfold repo_get_invoice repo_update_invoice_status
  exact find?_status_update s.invoices invoice_id st

/-- The short-circuit on non-pending invoices (source lines 269–270): the
invoice is returned as-is and the store untouched. -/
theorem check_status_not_pending_aux (env : Env) (s : Store) (invoice_id : Nat)
    (inv : Invoice) (hget : repo_get_invoice s invoice_id = some inv)
    (hst : inv.status ≠ InvoiceStatus.PENDING) :
    check_invoice_status env s invoice_id = (Except.ok inv, s) := by
  unfold check_invoice_status
  rw [hget]
  simp [hst]

/-! ## Claim theorems -/

/-- C2: for every invoice whose stored status is PAID or EXPIRED, a
`check_invoice_status` call returns the invoice as-is and performs no writes:
the returned store is the input store, so the invoice's status and the set of
stored Transaction records are unchanged. -/
theorem check_invoice_status_terminal_no_op (env : Env) (s : Store) (invoice_id : Nat)
    (inv : Invoice) (hget : repo_get_invoice s invoice_id = some inv)
    (hterm : inv.status = InvoiceStatus.PAID ∨ inv.status = InvoiceStatus.EXPIRED) :
    check_invoice_status env s invoice_id = (Except.ok inv, s) := by
  apply check_status_not_pending_aux env s invoice_id inv hget
  rcases hterm with h | h <;> simp [h]

theorem check_invoice_status_terminal_no_op_witness :
    repo_get_invoice (storeWith invPaid) 1 = some invPaid ∧
    (invPaid.status = InvoiceStatus.PAID ∨ invPaid.status = InvoiceStatus.EXPIRED) ∧
    check_invoice_status envBase (storeWith invPaid) 1
      = (Except.ok invPaid, storeWith invPaid) :=
  ⟨rfl, Or.inl rfl,
   check_invoice_status_terminal_no_op envBase (storeWith invPaid) 1 invPaid rfl (Or.inl rfl)⟩

/-- C4: when a wallet for (user_id, network) is already stored,
`get_wallet_for_user` returns it unchanged with the store untouched — for
every environment, so neither the network client nor the security provider
can influence the result — and a second sequential call returns the identical
wallet and leaves the same single persisted wallet. -/
theorem get_wallet_for_user_idempotent (env : Env) (s : Store) (user_id : Nat)
    (network : String) (w : Wallet)
    (h : repo_get_wallet s user_id network = some w) :
    get_wallet_for_user env s user_id network = (w, s) ∧
    get_wallet_for_user env (get_wallet_for_user env s user_id network).2 user_id network
      = (w, s) := by
  have h1 : get_wallet_for_user env s user_id network = (w, s) := by
    unfold get_wallet_for_user
    rw [h]
  refine ⟨h1, ?_⟩
  rw [h1]
  exact h1

theorem get_wallet_for_user_idempotent_witness :
    repo_get_wallet (storeWith invNoExp) 1 "bitcoin" = some walletB ∧
    get_wallet_for_user envBase (storeWith invNoExp) 1 "bitcoin"
      = (walletB, storeWith invNoExp) ∧
    get_wallet_for_user envBase
        (get_wallet_for_user envBase (storeWith invNoExp) 1 "bitcoin").2 1 "bitcoin"
      = (walletB, storeWith invNoExp) := by
  have h := get_wallet_for_user_idempotent envBase (storeWith invNoExp) 1 "bitcoin" walletB rfl
  exact ⟨rfl, h.1, h.2⟩

/-- C9: when no exchange rate exists for the requested pair,
`create_fiat_invoice` fails with the rate-unavailable error and returns the
input store unchanged: the rate is queried before the wallet provisioner or
any repository write, so no wallet is created and no invoice is saved. -/
theorem create_fiat_invoice_rate_missing_atomic (env : Env) (s : Store) (user_id : Nat)
    (network : String) (fiat_amount : ℚ) (fiat_currency : String) (expires_at : Option Int)
    (h : env.get_exchange_rate fiat_currency env.network_name = none) :
    create_fiat_invoice env s user_id network fiat_amount fiat_currency expires_at
      = (Except.error ("Exchange rate not available for " ++ fiat_currency ++ "/"
          ++ env.network_name), s) := by
  unfold create_fiat_invoice
  rw [h]

theorem create_fiat_invoice_rate_missing_atomic_witness :
    envBase.get_exchange_rate "EUR" envBase.network_name = none ∧
    create_fiat_invoice envBase (storeWith invNoExp) 1 "erc20" 100 "EUR" none
      = (Except.error ("Exchange rate not available for " ++ "EUR" ++ "/"
          ++ envBase.network_name), storeWith invNoExp) :=
  ⟨rfl, create_fiat_invoice_rate_missing_atomic envBase (storeWith invNoExp)
    1 "erc20" 100 "EUR" none rfl⟩

/-- C5: whenever the exchange-rate provider yields a rate, the invoice
returned by `create_fiat_invoice` carries
`crypto_amount = fiat_amount * reverted_rate` computed exactly in ℚ
(the embedding of Python `Decimal`): no floating-point rounding occurs. -/
theorem create_fiat_invoice_exact_rate (env : Env) (s : Store) (user_id : Nat)
    (network : String) (fiat_amount : ℚ) (fiat_currency : String) (expires_at : Option Int)
    (r : ExchangeRate)
    (h : env.get_exchange_rate fiat_currency env.network_name = some r) :
    resultCryptoAmount
        (create_fiat_invoice env s user_id network fiat_amount fiat_currency expires_at)
      = some (fiat_amount * r.reverted_rate) := by
  unfold create_fiat_invoice
  rw [h]
  rfl

theorem create_fiat_invoice_exact_rate_witness :
    envBase.get_exchange_rate "USD" envBase.network_name = some rateUSD ∧
    resultCryptoAmount (create_fiat_invoice envBase (storeWith invNoExp) 1 "erc20" 100 "USD" none)
      = some (100 * rateUSD.reverted_rate) ∧
    (100 : ℚ) * rateUSD.reverted_rate = 1/20 :=
  ⟨rfl,
   create_fiat_invoice_exact_rate envBase (storeWith invNoExp) 1 "erc20" 100 "USD" none
     rateUSD rfl,
   by norm_num [rateUSD]⟩

/-- C6: a pending invoice with a set (that is, present and nonzero — the
guard `if invoice.expires_at` uses Python truthiness, see C10) expiration
timestamp that has passed at the captured clock reading transitions to
EXPIRED, the new status is persisted through the invoice store's
`updateStatus`, and the invoice is returned marked EXPIRED. -/
theorem check_invoice_status_expired_transition (env : Env) (s : Store)
    (invoice_id : Nat) (inv : Invoice) (e : Int)
    (hget : repo_get_invoice s invoice_id = some inv)
    (hp : inv.status = InvoiceStatus.PENDING)
    (he : inv.expires_at = some e) (hnz : e ≠ 0) (ht : e < env.timeReads 0) :
    check_invoice_status env s invoice_id
      = (Except.ok { inv with status := InvoiceStatus.EXPIRED },
         repo_update_invoice_status s invoice_id InvoiceStatus.EXPIRED) ∧
    repo_get_invoice (repo_update_invoice_status s invoice_id InvoiceStatus.EXPIRED)
        invoice_id
      = some { inv with status := InvoiceStatus.EXPIRED } := by
  have hx : expiresPassed inv.expires_at (env.timeReads 0) = true := by
    rw [he]
    simp [expiresPassed, hnz, ht]
  constructor
  · unfold check_invoice_status
    rw [hget]
    simp [hp, hx]
  · rw [repo_get_invoice_update, hget]
    rfl

theorem check_invoice_status_expired_transition_witness :
    repo_get_invoice (storeWith invExp) 1 = some invExp ∧
    invExp.status = InvoiceStatus.PENDING ∧
    invExp.expires_at = some 50 ∧ (50 : Int) ≠ 0 ∧ (50 : Int) < envBase.timeReads 0 ∧
    (check_invoice_status envBase (storeWith invExp) 1
      = (Except.ok { invExp with status := InvoiceStatus.EXPIRED },
         repo_update_invoice_status (storeWith invExp) 1 InvoiceStatus.EXPIRED) ∧
     repo_get_invoice (repo_update_invoice_status (storeWith invExp) 1 InvoiceStatus.EXPIRED) 1
      = some { invExp with status := InvoiceStatus.EXPIRED }) :=
  ⟨rfl, rfl, rfl, by decide, by decide,
   check_invoice_status_expired_transition envBase (storeWith invExp) 1 invExp 50
     rfl rfl rfl (by decide) (by decide)⟩

/-- C10: a pending invoice whose expiration timestamp is exactly 0 is treated
as having no expiration: the guard tests the timestamp for Python truthiness
before comparing it to the clock, so `check_invoice_status` never returns it
as EXPIRED, whatever the clock reads and whatever the blockchain yields. -/
theorem check_invoice_status_zero_expiry_never_expires (env : Env) (s : Store)
    (invoice_id : Nat) (inv : Invoice)
    (hget : repo_get_invoice s invoice_id = some inv)
    (hp : inv.status = InvoiceStatus.PENDING)
    (he : inv.expires_at = some 0) :
    resultStatus (check_invoice_status env s invoice_id) ≠ some InvoiceStatus.EXPIRED := by
  have hx : expiresPassed inv.expires_at (env.timeReads 0) = false := by
    rw [he]
    simp [expiresPassed]
  cases hw : repo_get_wallet s inv.user_id inv.network with
  | none => simp [check_invoice_status, hget, hp, hx, hw, resultStatus]
  | some wallet =>
    cases hr : env.search_transactions_for_wallet wallet inv with
    | none => simp [check_invoice_status, hget, hp, hx, hw, hr, resultStatus]
    | some t =>
      cases hd : repo_get_transaction s t.hash t.network with
      | none => simp [check_invoice_status, hget, hp, hx, hw, hr, hd, resultStatus]
      | some ex => simp [check_invoice_status, hget, hp, hx, hw, hr, hd, resultStatus]

theorem check_invoice_status_zero_expiry_never_expires_witness :
    repo_get_invoice (storeWith invZero) 1 = some invZero ∧
    invZero.status = InvoiceStatus.PENDING ∧
    invZero.expires_at = some 0 ∧
    resultStatus (check_invoice_status envBase (storeWith invZero) 1)
      ≠ some InvoiceStatus.EXPIRED :=
  ⟨rfl, rfl, rfl,
   check_invoice_status_zero_expiry_never_expires envBase (storeWith invZero) 1 invZero
     rfl rfl rfl⟩

/-- Environment for the mid-check-expiry scenario: the single clock call
(reading 0) returns 100; a hypothetical second call after the blockchain
query (reading 1) would return 200. The reader finds nothing. -/
def envMid : Env := { envBase with timeReads := fun n => if n = 0 then 100 else 200 }

/-- C7 counterexample: the invoice expires at 150 — after the captured
pre-query clock reading (100) but before the moment of the post-query
re-check (reading 1 = 200), i.e. it expires mid-check.  The claim says such
an invoice is transitioned to EXPIRED; the code returns it PENDING with the
store untouched, because all three expiration guards compare the single
`current_time` captured before the blockchain query. -/
theorem check_invoice_status_midcheck_expiry_cx :
    repo_get_invoice (storeWith invMid) 1 = some invMid ∧
    invMid.status = InvoiceStatus.PENDING ∧
    invMid.expires_at = some 150 ∧
    envMid.timeReads 0 = 100 ∧
    envMid.timeReads 1 = 200 ∧
    envMid.search_transactions_for_wallet walletB invMid = none ∧
    check_invoice_status envMid (storeWith invMid) 1
      = (Except.ok invMid, storeWith invMid) ∧
    resultStatus (check_invoice_status envMid (storeWith invMid) 1)
      = some InvoiceStatus.PENDING :=
  ⟨rfl, rfl, rfl, rfl, rfl, rfl, rfl, rfl⟩

/-- C7 (amended): expiration is syntactically re-evaluated after the
blockchain query, but against the same timestamp captured before the query
(the clock is read exactly once, at source line 273); hence whenever the
pre-query check does not classify the invoice as expired and the reader
yields no transaction, the invoice is returned PENDING with the store
unchanged — for every environment, in particular whatever value a later
clock reading (`timeReads 1`) would have: an invoice that expires mid-check
is returned PENDING. -/
theorem check_invoice_status_postcheck_stale (env : Env) (s : Store)
    (invoice_id : Nat) (inv : Invoice) (wallet : Wallet) (e : Int)
    (hget : repo_get_invoice s invoice_id = some inv)
    (hp : inv.status = InvoiceStatus.PENDING)
    (he : inv.expires_at = some e)
    (hpre : env.timeReads 0 ≤ e)
    (hw : repo_get_wallet s inv.user_id inv.network = some wallet)
    (hr : env.search_transactions_for_wallet wallet inv = none) :
    check_invoice_status env s invoice_id = (Except.ok inv, s) := by
  have hgt : ¬ (env.timeReads 0 > e) := by omega
  have hx : expiresPassed inv.expires_at (env.timeReads 0) = false := by
    rw [he]
    simp [expiresPassed, hgt]
  simp [check_invoice_status, hget, hp, hx, hw, hr]

theorem check_invoice_status_postcheck_stale_witness :
    repo_get_invoice (storeWith invMid) 1 = some invMid ∧
    invMid.status = InvoiceStatus.PENDING ∧
    invMid.expires_at = some 150 ∧
    envMid.timeReads 0 ≤ 150 ∧
    repo_get_wallet (storeWith invMid) invMid.user_id invMid.network = some walletB ∧
    envMid.search_transactions_for_wallet walletB invMid = none ∧
    check_invoice_status envMid (storeWith invMid) 1
      = (Except.ok invMid, storeWith invMid) :=
  ⟨rfl, rfl, rfl, by decide, rfl, rfl,
   check_invoice_status_postcheck_stale envMid (storeWith invMid) 1 invMid walletB 150
     rfl rfl rfl (by decide) rfl rfl⟩

/-- C1 counterexample: a pending invoice whose expiration (50) has already
passed at the captured clock reading (100), while the blockchain reader
yields a matching transaction whose (hash, network) is not yet recorded.
The claim says the invoice transitions to PAID; the code transitions it to
EXPIRED at the pre-query expiration check — the blockchain is never
consulted and no Transaction is stored. -/
theorem check_invoice_status_paid_priority_cx :
    repo_get_invoice (storeWith invExp) 1 = some invExp ∧
    invExp.status = InvoiceStatus.PENDING ∧
    invExp.expires_at = some 50 ∧
    envPay.timeReads 0 = 100 ∧
    envPay.search_transactions_for_wallet walletB invExp = some txFresh ∧
    repo_get_transaction (storeWith invExp) txFresh.hash txFresh.network = none ∧
    resultStatus (check_invoice_status envPay (storeWith invExp) 1)
      = some InvoiceStatus.EXPIRED ∧
    (check_invoice_status envPay (storeWith invExp) 1).2.transactions = [] :=
  ⟨rfl, rfl, rfl, rfl, rfl, rfl, rfl, rfl⟩

/-- C1 (amended): payment takes priority over expiration only for expiry
that the single captured clock reading does not yet witness.  If the
pre-query expiration check does not fire (`timeReads 0 ≤ expires_at`) and a
fresh unduplicated matching transaction is found, the invoice transitions to
PAID — even when the expiration has already passed by the time of the
would-be post-query clock reading (`expires_at < timeReads 1`, an unused
but satisfiable hypothesis showing PAID is set regardless of later wall-clock
time).  An invoice whose expiration had already passed at the captured
reading instead goes EXPIRED without the blockchain being consulted (see the
counterexample). -/
theorem check_invoice_status_paid_priority_amended (env : Env) (s : Store)
    (invoice_id : Nat) (inv : Invoice) (wallet : Wallet) (t : Transaction) (e : Int)
    (hget : repo_get_invoice s invoice_id = some inv)
    (hp : inv.status = InvoiceStatus.PENDING)
    (he : inv.expires_at = some e)
    (hpre : env.timeReads 0 ≤ e)
    (_hpost : e < env.timeReads 1)
    (hw : repo_get_wallet s inv.user_id inv.network = some wallet)
    (hr : env.search_transactions_for_wallet wallet inv = some t)
    (hfresh : repo_get_transaction s t.hash t.network = none) :
    check_invoice_status env s invoice_id
      = (Except.ok { inv with status := InvoiceStatus.PAID },
         repo_update_invoice_status (repo_save_transaction s t) invoice_id
           InvoiceStatus.PAID) := by
  have hgt : ¬ (env.timeReads 0 > e) := by omega
  have hx : expiresPassed inv.expires_at (env.timeReads 0) = false := by
    rw [he]
    simp [expiresPassed, hgt]
  simp [check_invoice_status, hget, hp, hx, hw, hr, hfresh]

/-- Environment for the C1 witness: clock reading 0 is 100, reading 1 is
300; the reader yields `txFresh`. -/
def envPayLate : Env :=
  { envPay with timeReads := fun n => if n = 0 then 100 else 300 }

theorem check_invoice_status_paid_priority_amended_witness :
    repo_get_invoice (storeWith invLate) 1 = some invLate ∧
    invLate.status = InvoiceStatus.PENDING ∧
    invLate.expires_at = some 200 ∧
    envPayLate.timeReads 0 ≤ 200 ∧
    (200 : Int) < envPayLate.timeReads 1 ∧
    envPayLate.search_transactions_for_wallet walletB invLate = some txFresh ∧
    repo_get_transaction (storeWith invLate) txFresh.hash txFresh.network = none ∧
    check_invoice_status envPayLate (storeWith invLate) 1
      = (Except.ok { invLate with status := InvoiceStatus.PAID },
         repo_update_invoice_status (repo_save_transaction (storeWith invLate) txFresh) 1
           InvoiceStatus.PAID) :=
  ⟨rfl, rfl, rfl, by decide, by decide, rfl, rfl,
   check_invoice_status_paid_priority_amended envPayLate (storeWith invLate) 1 invLate
     walletB txFresh 200 rfl rfl rfl (by decide) (by decide) rfl rfl rfl⟩

/-- Previously recorded transaction with the same (hash, network) the reader
yields, bound to a different invoice (7). -/
def txPrior : Transaction := { id := 1, invoice_id := 7, hash := "0xabc", network := "bitcoin" }

/-- Store in which (hash "0xabc", network "bitcoin") is already recorded. -/
def storeDup : Store :=
  { wallets := [walletB], invoices := [invNoExp], transactions := [txPrior]
    next_wallet_id := 2, next_invoice_id := 2, next_transaction_id := 2 }

/-- C3: dedup invariant of `check_invoice_status`.  First part: if the
blockchain reader yields a transaction whose (hash, network) is already
recorded, the invoice is never set to PAID and the transaction store is
unchanged (no second record).  Second part: on a fresh match the invoice
makes exactly one PAID transition with exactly one new Transaction record,
and reconciling the same invoice again against the resulting store changes
nothing. -/
theorem check_invoice_status_dedup (env : Env) (s : Store) (invoice_id : Nat)
    (inv : Invoice) (wallet : Wallet) (t : Transaction)
    (hget : repo_get_invoice s invoice_id = some inv)
    (hp : inv.status = InvoiceStatus.PENDING)
    (hw : repo_get_wallet s inv.user_id inv.network = some wallet)
    (hr : env.search_transactions_for_wallet wallet inv = some t) :
    ((repo_get_transaction s t.hash t.network).isSome = true →
        resultStatus (check_invoice_status env s invoice_id) ≠ some InvoiceStatus.PAID ∧
        (check_invoice_status env s invoice_id).2.transactions = s.transactions) ∧
    (expiresPassed inv.expires_at (env.timeReads 0) = false →
      repo_get_transaction s t.hash t.network = none →
        check_invoice_status env s invoice_id
          = (Except.ok { inv with status := InvoiceStatus.PAID },
             repo_update_invoice_status (repo_save_transaction s t) invoice_id
               InvoiceStatus.PAID) ∧
        (repo_update_invoice_status (repo_save_transaction s t) invoice_id
            InvoiceStatus.PAID).transactions
          = s.transactions ++ [{ t with id := s.next_transaction_id }] ∧
        check_invoice_status env
            (repo_update_invoice_status (repo_save_transaction s t) invoice_id
              InvoiceStatus.PAID) invoice_id
          = (Except.ok { inv with status := InvoiceStatus.PAID },
             repo_update_invoice_status (repo_save_transaction s t) invoice_id
               InvoiceStatus.PAID)) := by
  constructor
  · intro hdup
    rcases Option.isSome_iff_exists.mp hdup with ⟨ex, hex⟩
    cases hx : expiresPassed inv.expires_at (env.timeReads 0) with
    | true =>
      exact ⟨by simp [check_invoice_status, hget, hp, hx, resultStatus],
             by simp [check_invoice_status, hget, hp, hx,
                      transactions_update_invoice_status]⟩
    | false =>
      exact ⟨by simp [check_invoice_status, hget, hp, hx, hw, hr, hex, resultStatus],
             by simp [check_invoice_status, hget, hp, hx, hw, hr, hex]⟩
  · intro hne hfresh
    have hget2 : repo_get_invoice
        (repo_update_invoice_status (repo_save_transaction s t) invoice_id
          InvoiceStatus.PAID) invoice_id
        = some { inv with status := InvoiceStatus.PAID } := by
      rw [repo_get_invoice_update]
      have hsame : repo_get_invoice (repo_save_transaction s t) invoice_id
          = repo_get_invoice s invoice_id := rfl
      rw [hsame, hget]
      rfl
    refine ⟨by simp [check_invoice_status, hget, hp, hne, hw, hr, hfresh], rfl, ?_⟩
    exact check_status_not_pending_aux env _ invoice_id _ hget2 (by simp)

theorem check_invoice_status_dedup_witness :
    repo_get_invoice storeDup 1 = some invNoExp ∧
    invNoExp.status = InvoiceStatus.PENDING ∧
    repo_get_wallet storeDup invNoExp.user_id invNoExp.network = some walletB ∧
    envPay.search_transactions_for_wallet walletB invNoExp = some txFresh ∧
    (((repo_get_transaction storeDup txFresh.hash txFresh.network).isSome = true →
        resultStatus (check_invoice_status envPay storeDup 1) ≠ some InvoiceStatus.PAID ∧
        (check_invoice_status envPay storeDup 1).2.transactions = storeDup.transactions) ∧
     (expiresPassed invNoExp.expires_at (envPay.timeReads 0) = false →
      repo_get_transaction storeDup txFresh.hash txFresh.network = none →
        check_invoice_status envPay storeDup 1
          = (Except.ok { invNoExp with status := InvoiceStatus.PAID },
             repo_update_invoice_status (repo_save_transaction storeDup txFresh) 1
               InvoiceStatus.PAID) ∧
        (repo_update_invoice_status (repo_save_transaction storeDup txFresh) 1
            InvoiceStatus.PAID).transactions
          = storeDup.transactions ++ [{ txFresh with id := storeDup.next_transaction_id }] ∧
        check_invoice_status envPay
            (repo_update_invoice_status (repo_save_transaction storeDup txFresh) 1
              InvoiceStatus.PAID) 1
          = (Except.ok { invNoExp with status := InvoiceStatus.PAID },
             repo_update_invoice_status (repo_save_transaction storeDup txFresh) 1
               InvoiceStatus.PAID))) :=
  ⟨rfl, rfl, rfl, rfl,
   check_invoice_status_dedup envPay storeDup 1 invNoExp walletB txFresh rfl rfl rfl rfl⟩

/-- C8 counterexample: on a fresh match the service persists the blockchain
reader's transaction verbatim (source line 305) — it never sets the record's
`invoice_id` to the reconciled invoice's id.  Here the reader yields a
transaction with `invoice_id = 42` while the invoice being reconciled has
id 1; the stored record carries 42, refuting "whose invoice identifier
equals the id of the invoice being reconciled". -/
theorem check_invoice_status_tx_invoice_binding_cx :
    repo_get_invoice (storeWith invNoExp) 1 = some invNoExp ∧
    invNoExp.status = InvoiceStatus.PENDING ∧
    invNoExp.id = 1 ∧
    envPay.search_transactions_for_wallet walletB invNoExp = some txFresh ∧
    repo_get_transaction (storeWith invNoExp) txFresh.hash txFresh.network = none ∧
    resultStatus (check_invoice_status envPay (storeWith invNoExp) 1)
      = some InvoiceStatus.PAID ∧
    (check_invoice_status envPay (storeWith invNoExp) 1).2.transactions
      = [{ txFresh with id := 1 }] ∧
    Transaction.invoice_id { txFresh with id := 1 } ≠ invNoExp.id :=
  ⟨rfl, rfl, rfl, rfl, rfl, rfl, rfl, by decide⟩

/-- C8 (amended): for every fresh (unduplicated) transaction match on a
pending invoice, `check_invoice_status` persists a new Transaction record
that is exactly the transaction the blockchain reader returned (same hash,
network, and invoice identifier as the reader provided — with only the
surrogate id assigned by the store), then sets the invoice status to PAID,
persists the status update, and returns the invoice marked PAID. -/
theorem check_invoice_status_fresh_match_persists (env : Env) (s : Store)
    (invoice_id : Nat) (inv : Invoice) (wallet : Wallet) (t : Transaction)
    (hget : repo_get_invoice s invoice_id = some inv)
    (hp : inv.status = InvoiceStatus.PENDING)
    (hne : expiresPassed inv.expires_at (env.timeReads 0) = false)
    (hw : repo_get_wallet s inv.user_id inv.network = some wallet)
    (hr : env.search_transactions_for_wallet wallet inv = some t)
    (hfresh : repo_get_transaction s t.hash t.network = none) :
    check_invoice_status env s invoice_id
      = (Except.ok { inv with status := InvoiceStatus.PAID },
         repo_update_invoice_status (repo_save_transaction s t) invoice_id
           InvoiceStatus.PAID) ∧
    (repo_update_invoice_status (repo_save_transaction s t) invoice_id
        InvoiceStatus.PAID).transactions
      = s.transactions ++ [{ t with id := s.next_transaction_id }] ∧
    repo_get_invoice (repo_update_invoice_status (repo_save_transaction s t) invoice_id
        InvoiceStatus.PAID) invoice_id
      = some { inv with status := InvoiceStatus.PAID } := by
  refine ⟨by simp [check_invoice_status, hget, hp, hne, hw, hr, hfresh], rfl, ?_⟩
  rw [repo_get_invoice_update]
  have hsame : repo_get_invoice (repo_save_transaction s t) invoice_id
      = repo_get_invoice s invoice_id := rfl
  rw [hsame, hget]
  rfl

theorem check_invoice_status_fresh_match_persists_witness :
    repo_get_invoice (storeWith invNoExp) 1 = some invNoExp ∧
    invNoExp.status = InvoiceStatus.PENDING ∧
    expiresPassed invNoExp.expires_at (envPay.timeReads 0) = false ∧
    repo_get_wallet (storeWith invNoExp) invNoExp.user_id invNoExp.network = some walletB ∧
    envPay.search_transactions_for_wallet walletB invNoExp = some txFresh ∧
    repo_get_transaction (storeWith invNoExp) txFresh.hash txFresh.network = none ∧
    (check_invoice_status envPay (storeWith invNoExp) 1
      = (Except.ok { invNoExp with status := InvoiceStatus.PAID },
         repo_update_invoice_status (repo_save_transaction (storeWith invNoExp) txFresh) 1
           InvoiceStatus.PAID) ∧
     (repo_update_invoice_status (repo_save_transaction (storeWith invNoExp) txFresh) 1
        InvoiceStatus.PAID).transactions
      = (storeWith invNoExp).transactions
          ++ [{ txFresh with id := (storeWith invNoExp).next_transaction_id }] ∧
     repo_get_invoice
        (repo_update_invoice_status (repo_save_transaction (storeWith invNoExp) txFresh) 1
          InvoiceStatus.PAID) 1
      = some { invNoExp with status := InvoiceStatus.PAID }) :=
  ⟨rfl, rfl, rfl, rfl, rfl, rfl,
   check_invoice_status_fresh_match_persists envPay (storeWith invNoExp) 1 invNoExp
     walletB txFresh rfl rfl rfl rfl rfl rfl⟩

end Cryptopay
